import Mathlib

/-!
# Verification of the educational Telegram bot (src/) against its spec

Shallow embedding of the bot's data model and handlers.

Conventions of the embedding:
* Airtable user records (`user['fields']`) become `UserFields`; the claims all
  concern a single user, so the persisted store is modelled as that user's
  persisted `UserFields`.
* Video records become `VideoRecord`; the Airtable `get_videos` queries become
  pure lookups over a `catalog : List VideoRecord` parameter.
* Levels and states are the literal strings the code stores
  (`Config.USER_LEVELS`, `UserState.*.value`).
* Wall-clock timestamps (`time.time()`) are irrelevant to every property below
  and are modelled as `0`.
* Outbound Telegram messages become a `List String` of reply texts.
-/

/-- Embeds `Config.MAX_VIDEOS_PER_LEVEL` from src/config.py. -/
def MAX_VIDEOS_PER_LEVEL : Nat := 2

/-- Embeds `Config.LEVEL_PROGRESSION` from src/config.py, as an association list. -/
def LEVEL_PROGRESSION : List (String × String) :=
  [("Beginner", "Intermediate"), ("Intermediate", "Advanced"), ("Advanced", "Advanced")]

/-- Embeds `Config.LEVEL_PROGRESSION.get(current_level, Config.USER_LEVELS["BEGINNER"])`:
`get_next_level` from src/main.py. -/
def get_next_level (current_level : String) : String :=
  (LEVEL_PROGRESSION.lookup current_level).getD "Beginner"

/-- The video-number increment / level-progression step shared by
`handle_next_video_callback` and `handle_next_video_from_reply` in src/main.py:
`new = n + 1`; if `new > Config.MAX_VIDEOS_PER_LEVEL` move to
`(get_next_level level, 1)`, else stay at `(level, new)`. -/
def advance (level : String) (video_number : Nat) : String × Nat :=
  let new_video_number := video_number + 1
  if new_video_number > MAX_VIDEOS_PER_LEVEL then (get_next_level level, 1)
  else (level, new_video_number)

/-- C2: with `max_per_level = 2`, `advance` yields `(level, n+1)` when
`n + 1 ≤ 2` and `(next_level level, 1)` otherwise, where `next_level` maps
Beginner ↦ Intermediate ↦ Advanced ↦ Advanced; the three concrete instances
from the spec hold. -/
theorem advance_spec (level : String) (n : Nat) :
    (n + 1 ≤ MAX_VIDEOS_PER_LEVEL → advance level n = (level, n + 1)) ∧
    (¬ n + 1 ≤ MAX_VIDEOS_PER_LEVEL → advance level n = (get_next_level level, 1)) ∧
    get_next_level "Beginner" = "Intermediate" ∧
    get_next_level "Intermediate" = "Advanced" ∧
    get_next_level "Advanced" = "Advanced" ∧
    advance "Beginner" 1 = ("Beginner", 2) ∧
    advance "Beginner" 2 = ("Intermediate", 1) ∧
    advance "Advanced" 2 = ("Advanced", 1) := by
  refine ⟨fun h => ?_, fun h => ?_, by decide, by decide, by decide, by decide, by decide, by decide⟩
  · simp [advance, Nat.not_lt_of_le h]
  · simp [advance, Nat.lt_of_not_le h]

/-- C2 witness: `advance` at the concrete input `("Beginner", 1)`. -/
theorem advance_spec_witness : advance "Beginner" 1 = ("Beginner", 2) :=
  (advance_spec "Beginner" 1).1 (by decide)

/-- C10: any level outside the progression table (such as "Entry") is sent to
"Beginner" by `get_next_level`, and advancing past the last video at such a
level lands at `("Beginner", 1)`. -/
theorem get_next_level_default (s : String)
    (h : s ≠ "Beginner" ∧ s ≠ "Intermediate" ∧ s ≠ "Advanced") :
    get_next_level s = "Beginner" ∧
    (∀ n : Nat, n + 1 > MAX_VIDEOS_PER_LEVEL → advance s n = ("Beginner", 1)) := by
  obtain ⟨h1, h2, h3⟩ := h
  have b1 : (s == "Beginner") = false := beq_eq_false_iff_ne.mpr h1
  have b2 : (s == "Intermediate") = false := beq_eq_false_iff_ne.mpr h2
  have b3 : (s == "Advanced") = false := beq_eq_false_iff_ne.mpr h3
  have hlk : get_next_level s = "Beginner" := by
    simp [get_next_level, LEVEL_PROGRESSION, List.lookup, b1, b2, b3]
  exact ⟨hlk, fun n hn => by simp [advance, hn, hlk]⟩

/-- C10 witness: the concrete unrecognized level "Entry" at video 2. -/
theorem get_next_level_default_witness :
    get_next_level "Entry" = "Beginner" ∧ advance "Entry" 2 = ("Beginner", 1) := by
  have h := get_next_level_default "Entry" (by decide)
  exact ⟨h.1, h.2 2 (by decide)⟩

/-- The string values of `UserState` (src/models.py). -/
def STATE_PLACEMENT_TEST : String := "Placement Test"

/-- Embeds `UserState.SHOWING_VIDEO.value`. -/
def STATE_SHOWING_VIDEO : String := "Showing Video"

/-- Embeds `UserState.WAITING_FOR_RESPONSE.value`. -/
def STATE_WAITING_FOR_RESPONSE : String := "Waiting for Response"

/-- Embeds `UserState.CHAT_MODE.value`. -/
def STATE_CHAT_MODE : String := "Chat Mode"

/-- Embeds `UserState.COURSE_OVERVIEW.value`. -/
def STATE_COURSE_OVERVIEW : String := "Course Overview"

/-- The mutable fields of the Airtable user record (`user['fields']`):
`Level`, `Video Number`, `State`. -/
structure UserFields where
  level : String
  videoNumber : Nat
  state : String
deriving DecidableEq, Repr

/-- A row of the Airtable Videos table, flattened to the fields the code
reads through `extract_video_info` (src/airtable_service.py). -/
structure VideoRecord where
  recordId : String
  title : String
  description : String
  question : String
  url : String
  level : String
  videoNumber : Nat
  understandingBenchmark : Option String
deriving DecidableEq, Repr

/-- One entry of `user_review_sessions[user_id]` (src/main.py): the original
progress captured when a review starts. -/
structure ReviewSnapshot where
  originalLevel : String
  originalVideoNumber : Nat
  reviewVideoId : String
deriving DecidableEq, Repr

/-- Embeds `ConversationMessage` from src/models.py (timestamps modelled as `0`). -/
structure ConversationMessage where
  role : String
  content : String
  timestamp : Nat
  messageId : Option String
deriving DecidableEq, Repr

/-- Embeds `VideoConversationContext` from src/models.py. -/
structure VideoConversationContext where
  video_record_id : String
  video_title : String
  video_question : String
  understanding_benchmark : Option String
  conversation_history : List ConversationMessage
  created_at : Nat
deriving DecidableEq, Repr

/-- The fresh, empty-history context both `get_or_create_context` (on a miss)
and `update_context_for_video` build from a video record (src/main.py). -/
def freshContext (video_data : VideoRecord) : VideoConversationContext :=
  { video_record_id := video_data.recordId
    video_title := video_data.title
    video_question := video_data.question
    understanding_benchmark := video_data.understandingBenchmark
    conversation_history := []
    created_at := 0 }

/-- Embeds `ConversationManager.get_or_create_context` (src/main.py): the stored
context for the user is `conv` (`none` when `user_id not in
user_conversations`); the given video is used only when a fresh context must
be created. -/
def get_or_create_context (conv : Option VideoConversationContext)
    (video_data : VideoRecord) : VideoConversationContext :=
  match conv with
  | none => freshContext video_data
  | some c => c

/-- Embeds `ConversationManager.update_context_for_video` (src/main.py): always
replaces the stored context with a fresh one for the video. -/
def update_context_for_video (video_data : VideoRecord) : VideoConversationContext :=
  freshContext video_data

/-- Embeds `VideoConversationContext.add_message` (src/models.py). -/
def addMessage (ctx : VideoConversationContext) (role content : String)
    (messageId : Option String) : VideoConversationContext :=
  { ctx with conversation_history :=
      ctx.conversation_history ++ [⟨role, content, 0, messageId⟩] }

/-- The per-entry rendering `f"{role_label}: {msg.content}"` of
`get_conversation_summary` (src/models.py). -/
def renderMessage (msg : ConversationMessage) : String :=
  (if msg.role = "user" then "User" else "Assistant") ++ ": " ++ msg.content

/-- Python's `list[-5:]`: the last five elements (all of them when fewer). -/
def lastFive (l : List ConversationMessage) : List ConversationMessage :=
  l.drop (l.length - 5)

/-- The rendered entries of the summary: the last five history messages,
newest last, each as `"<Role>: <content>"`. -/
def summaryParts (ctx : VideoConversationContext) : List String :=
  (lastFive ctx.conversation_history).map renderMessage

/-- Embeds `VideoConversationContext.get_conversation_summary` (src/models.py). -/
def get_conversation_summary (ctx : VideoConversationContext) : String :=
  if ctx.conversation_history = [] then ""
  else String.intercalate "\n" (summaryParts ctx)

/-- The summary as the handlers consume it
(`ctx.get_conversation_summary() if ctx else ""`, src/main.py). -/
def summaryOfUser (conv : Option VideoConversationContext) : String :=
  match conv with
  | none => ""
  | some c => get_conversation_summary c

/-- Embeds `Config.MESSAGES["VIDEO_NOT_FOUND"]` (src/config.py). -/
def VIDEO_NOT_FOUND : String := "Entschuldigung, das Video konnte nicht gefunden werden."

/-- Embeds `Config.MESSAGES["NEXT_VIDEO_START"]`. -/
def NEXT_VIDEO_START : String := "Super! Dann starten wir mit dem nächsten Video!"

/-- Embeds `Config.MESSAGES["CONGRATULATIONS"].format(level=...)`. -/
def CONGRATULATIONS (level : String) : String :=
  "🎉 Glückwunsch! Du bist jetzt auf dem " ++ level ++ " Level!"

/-- Embeds `Config.MESSAGES["UNDERSTOOD_BUTTON"]`. -/
def UNDERSTOOD_BUTTON : String := "Verstanden!"

/-- Embeds `get_video_info` / `VideoManager.get_video_info_cached` (src/utils.py):
`get_videos(level, video_number)` filters the catalog on both fields and the
handler takes `videos[0]`. -/
def get_video_info (catalog : List VideoRecord) (user_level : String)
    (video_number : Nat) : Option VideoRecord :=
  (catalog.filter (fun v => v.level == user_level && v.videoNumber == video_number)).head?

/-- The per-user server state the handlers touch: the persisted Airtable user
record, `user_review_sessions[user_id]` and `user_conversations[user_id]`. -/
structure BotState where
  persisted : UserFields
  reviewSession : Option ReviewSnapshot
  conversation : Option VideoConversationContext
deriving DecidableEq, Repr

/-- Embeds `handle_showing_video_state` (src/main.py): `user` is the in-memory
`user['fields']` dict the caller passes (it may already differ from
`st.persisted`).  On success the state moves to Waiting for Response and is
written back via `safe_update_user`; on a missing video the handler only
replies `VIDEO_NOT_FOUND` and writes nothing. -/
def handle_showing_video_state (catalog : List VideoRecord) (user : UserFields)
    (st : BotState) : BotState × List String :=
  match get_video_info catalog user.level user.videoNumber with
  | some video_info =>
      let replies :=
        (if video_info.url == "" then ["📹 " ++ video_info.title]
         else ["📹 " ++ video_info.title ++ ". \n " ++ video_info.description,
               "🎥 Video: " ++ video_info.url]) ++
        ["❓ " ++ video_info.question]
      let user' := { user with state := STATE_WAITING_FOR_RESPONSE }
      ({ st with persisted := user' }, replies)
  | none => (st, [VIDEO_NOT_FOUND])

/-- Embeds `handle_next_video_from_reply` (src/main.py): increment the video number,
roll over to `get_next_level` past `MAX_VIDEOS_PER_LEVEL` (with a
congratulations message), write back, replace the conversation context when
the new video exists, then re-enter the Showing Video behavior. -/
def handle_next_video_from_reply (catalog : List VideoRecord) (user : UserFields)
    (st : BotState) : BotState × List String :=
  let new_video_number := user.videoNumber + 1
  let congrats : List String :=
    if new_video_number > MAX_VIDEOS_PER_LEVEL then
      [CONGRATULATIONS (get_next_level user.level)]
    else []
  let user₁ : UserFields :=
    if new_video_number > MAX_VIDEOS_PER_LEVEL then
      { level := get_next_level user.level, videoNumber := 1, state := STATE_SHOWING_VIDEO }
    else
      { level := user.level, videoNumber := new_video_number, state := STATE_SHOWING_VIDEO }
  let st₁ : BotState := { st with persisted := user₁ }
  let st₂ : BotState :=
    match get_video_info catalog user₁.level user₁.videoNumber with
    | some video_data => { st₁ with conversation := some (update_context_for_video video_data) }
    | none => st₁
  let next := handle_showing_video_state catalog user₁ st₂
  (next.1, congrats ++ next.2)

/-- The `Verstanden!` block of `handle_message` (src/main.py, lines 845-893).
It runs only when the persisted state is Waiting for Response or Chat Mode;
with a review session it restores the snapshot, otherwise it advances via
`handle_next_video_from_reply`. -/
def handle_understood (catalog : List VideoRecord) (st : BotState) : BotState × List String :=
  let user := st.persisted
  match st.reviewSession with
  | some review_session =>
      let user₁ := { user with
        level := review_session.originalLevel
        videoNumber := review_session.originalVideoNumber }
      ({ st with persisted := user₁, reviewSession := none },
       ["Wiederholung beendet! Du bist zurück bei " ++ review_session.originalLevel ++
        " Video " ++ toString review_session.originalVideoNumber ++ "."])
  | none =>
      let next := handle_next_video_from_reply catalog user st
      (next.1, NEXT_VIDEO_START :: next.2)

/-- Embeds `handle_video_selection_callback` (src/main.py): look the record up by id;
for a non-review write the target back immediately, for a review store a
`ReviewSnapshot` of the current persisted progress instead; replace the
conversation context and re-enter the Showing Video behavior with the
in-memory user dict already pointing at the target. -/
def handle_video_selection_callback (catalog : List VideoRecord) (st : BotState)
    (video_record_id : String) (is_review : Bool) : BotState × List String :=
  let user := st.persisted
  match catalog.find? (fun v => v.recordId == video_record_id) with
  | none => (st, ["Video nicht gefunden."])
  | some video_info =>
      let original_level := user.level
      let original_video_number := user.videoNumber
      let user₁ : UserFields :=
        { level := video_info.level, videoNumber := video_info.videoNumber,
          state := STATE_SHOWING_VIDEO }
      let st₁ : BotState :=
        if is_review then
          let snap := ReviewSnapshot.mk original_level original_video_number video_record_id
          { st with reviewSession := some snap }
        else
          { st with persisted := user₁ }
      let st₂ : BotState := { st₁ with conversation := some (update_context_for_video video_info) }
      let loading :=
        "Video wird geladen: " ++ video_info.title ++ (if is_review then " (Wiederholung)" else "")
      let next := handle_showing_video_state catalog user₁ st₂
      (next.1, loading :: next.2)

/-- Embeds `handle_waiting_for_response_state` (src/main.py).  The Mistral assessment
is abstracted as `oracle` (`.ok feedback` or `.error e`).  Note that both the
video-found and the video-missing branch end in the shared tail that
transitions the user to Chat Mode and writes back via `safe_update_user`. -/
def handle_waiting_for_response_state (catalog : List VideoRecord)
    (oracle : Except String String) (st : BotState) (text : String) :
    BotState × List String :=
  let user := st.persisted
  match get_video_info catalog user.level user.videoNumber with
  | some video_data =>
      let ctx := get_or_create_context st.conversation video_data
      let ctx₁ := addMessage ctx "user" text none
      let bot_response :=
        match oracle with
        | .ok feedback => "💭 " ++ feedback
        | .error _ => "Danke für deine Antwort: " ++ text
      let ctx₂ := addMessage ctx₁ "assistant" bot_response none
      ({ persisted := { user with state := STATE_CHAT_MODE },
         reviewSession := st.reviewSession,
         conversation := some ctx₂ }, [bot_response])
  | none =>
      let bot_response := "Danke für deine Antwort: " ++ text
      ({ st with persisted := { user with state := STATE_CHAT_MODE } }, [bot_response])

/-- The `level_map` of `assess_placement_test` (src/main.py). -/
def level_map : List (Nat × String) := [(1, "Beginner"), (2, "Intermediate"), (3, "Advanced")]

/-- Embeds `assess_placement_test` (src/main.py): the Mistral call is abstracted as
`oracle`; on failure the fallback is `level_map[random.randint(1, 3)]`
(`none` models the unreachable `KeyError` outside 1..3). -/
def assess_placement_test (oracle : Except String String) (random_number : Nat) :
    Option String :=
  match oracle with
  | .ok result => some result
  | .error _ => level_map.lookup random_number

/-- Embeds `handle_placement_test_state` (src/main.py): set level from the placement
result, video number 1, state Showing Video, reply, write back. -/
def handle_placement_test_state (oracle : Except String String) (random_number : Nat)
    (st : BotState) : Option (BotState × List String) :=
  match assess_placement_test oracle random_number with
  | none => none
  | some placement_group =>
      let user := st.persisted
      let user₁ : UserFields :=
        { user with level := placement_group, state := STATE_SHOWING_VIDEO, videoNumber := 1 }
      some ({ st with persisted := user₁ },
        ["Perfekt! Du bist bereit für dein erstes Video."])

/-- A context bound to video "vidA" that already holds one message. -/
def ctxA : VideoConversationContext :=
  { video_record_id := "vidA", video_title := "A", video_question := "QA",
    understanding_benchmark := none,
    conversation_history := [⟨"user", "hi", 0, none⟩], created_at := 0 }

/-- A different video, "vidB". -/
def videoB : VideoRecord :=
  { recordId := "vidB", title := "B", description := "", question := "QB",
    url := "", level := "Beginner", videoNumber := 1, understandingBenchmark := none }

/-- C4 counterexample: with an existing context bound to "vidA",
`get_or_create_context` called for video "vidB" returns the old "vidA" context
(history intact) instead of behaving as replace. -/
theorem get_or_create_ignores_video :
    (get_or_create_context (some ctxA) videoB).video_record_id = "vidA" ∧
    (get_or_create_context (some ctxA) videoB).video_record_id ≠ videoB.recordId ∧
    get_or_create_context (some ctxA) videoB ≠ freshContext videoB ∧
    (get_or_create_context (some ctxA) videoB).conversation_history ≠ [] := by
  decide

/-- C4 (amended): `get_or_create_context` returns the existing context
whenever one exists, regardless of which video is passed; it builds a fresh
empty-history context only when no context exists.  Replacement on video
change is done only by `update_context_for_video`. -/
theorem get_or_create_context_spec :
    (∀ v : VideoRecord, get_or_create_context none v = freshContext v) ∧
    (∀ (c : VideoConversationContext) (v : VideoRecord), get_or_create_context (some c) v = c) ∧
    (∀ v : VideoRecord, update_context_for_video v = freshContext v) :=
  ⟨fun _ => rfl, fun _ _ => rfl, fun _ => rfl⟩

/-- Number of lines of a rendered text: one more than its newline count. -/
def lineCount (s : String) : Nat := s.data.count '\n' + 1

/-- Unfolding of `String.intercalate.go`: newline count of the accumulated
string. -/
theorem count_intercalate_go (l : List String) : ∀ acc : String,
    (String.intercalate.go acc "\n" l).data.count '\n' =
      acc.data.count '\n' + (l.map (fun x => x.data.count '\n')).sum + l.length := by
  induction l with
  | nil => intro acc; simp [String.intercalate.go]
  | cons b bs ih =>
      intro acc
      have hgo : String.intercalate.go acc "\n" (b :: bs) =
          String.intercalate.go (acc ++ "\n" ++ b) "\n" bs := rfl
      rw [hgo, ih]
      simp [String.data_append, List.count_append]
      omega

/-- Newline count of `String.intercalate "\n"` over a nonempty list. -/
theorem count_intercalate (p : String) (rest : List String) :
    (String.intercalate "\n" (p :: rest)).data.count '\n' =
      ((p :: rest).map (fun x => x.data.count '\n')).sum + rest.length := by
  have h : String.intercalate "\n" (p :: rest) = String.intercalate.go p "\n" rest := rfl
  rw [h, count_intercalate_go]
  simp

/-- A rendered summary entry has no newline when the message content has
none: the role labels are newline-free. -/
theorem count_renderMessage (m : ConversationMessage)
    (h : m.content.data.count '\n' = 0) :
    (renderMessage m).data.count '\n' = 0 := by
  unfold renderMessage
  by_cases hr : m.role = "user" <;>
    simp [hr, String.data_append, List.count_append, h]

/-- Every rendered summary entry is newline-free when every message content
is. -/
theorem summaryParts_count_zero (ctx : VideoConversationContext)
    (hnl : ∀ m ∈ ctx.conversation_history, m.content.data.count '\n' = 0) :
    ∀ p ∈ summaryParts ctx, p.data.count '\n' = 0 := by
  intro p hp
  rw [summaryParts, List.mem_map] at hp
  obtain ⟨m, hm, rfl⟩ := hp
  exact count_renderMessage m (hnl m (List.drop_subset _ _ hm))

/-- C7: the conversation summary renders exactly the last five history
messages (all of them when fewer) as `"<Role>: <content>"` entries, newest
last; it is `""` with no context or an empty history; with newline-free
contents the rendered text has `min (length) 5 ≤ 5` lines, and exactly one
line for a one-message history. -/
theorem conversation_summary_spec (ctx : VideoConversationContext)
    (hnl : ∀ m ∈ ctx.conversation_history, m.content.data.count '\n' = 0) :
    summaryOfUser none = "" ∧
    (ctx.conversation_history = [] → get_conversation_summary ctx = "") ∧
    summaryParts ctx =
      (ctx.conversation_history.drop (ctx.conversation_history.length - 5)).map renderMessage ∧
    (summaryParts ctx).length = min ctx.conversation_history.length 5 ∧
    (summaryParts ctx).length ≤ 5 ∧
    (ctx.conversation_history ≠ [] →
      get_conversation_summary ctx = String.intercalate "\n" (summaryParts ctx) ∧
      lineCount (get_conversation_summary ctx) = min ctx.conversation_history.length 5 ∧
      lineCount (get_conversation_summary ctx) ≤ 5) ∧
    (∀ m, ctx.conversation_history = [m] →
      get_conversation_summary ctx = renderMessage m) := by
  have hlen : (summaryParts ctx).length = min ctx.conversation_history.length 5 := by
    simp [summaryParts, lastFive]
    omega
  refine ⟨rfl, ?_, rfl, hlen, by omega, ?_, ?_⟩
  · intro h
    simp [get_conversation_summary, h]
  · intro hne
    have hparts : get_conversation_summary ctx = String.intercalate "\n" (summaryParts ctx) := by
      simp [get_conversation_summary, hne]
    refine ⟨hparts, ?_, ?_⟩
    · obtain ⟨p, rest, hp⟩ : ∃ p rest, summaryParts ctx = p :: rest := by
        cases hsp : summaryParts ctx with
        | nil =>
            rw [hsp] at hlen
            have : ctx.conversation_history.length ≠ 0 := fun h =>
              hne (List.length_eq_zero.mp h)
            simp at hlen
            omega
        | cons p rest => exact ⟨p, rest, rfl⟩
      have hz : ∀ x ∈ p :: rest, x.data.count '\n' = 0 := by
        rw [← hp]; exact summaryParts_count_zero ctx hnl
      have hsum : ((p :: rest).map (fun x => x.data.count '\n')).sum = 0 := by
        apply List.sum_eq_zero
        intro y hy
        rw [List.mem_map] at hy
        obtain ⟨x, hx, rfl⟩ := hy
        exact hz x hx
      rw [hparts, hp, lineCount, count_intercalate, hsum]
      rw [hp] at hlen
      simp at hlen ⊢
      omega
    · rw [hparts]
      rcases h5 : summaryParts ctx with _ | ⟨p, rest⟩
      · decide
      · have hz : ∀ x ∈ p :: rest, x.data.count '\n' = 0 := by
          rw [← h5]; exact summaryParts_count_zero ctx hnl
        have hsum : ((p :: rest).map (fun x => x.data.count '\n')).sum = 0 := by
          apply List.sum_eq_zero
          intro y hy
          rw [List.mem_map] at hy
          obtain ⟨x, hx, rfl⟩ := hy
          exact hz x hx
        rw [lineCount, count_intercalate, hsum]
        rw [h5] at hlen
        simp at hlen
        omega
  · intro m hm
    have h1 : summaryParts ctx = [renderMessage m] := by
      simp [summaryParts, lastFive, hm]
    have h2 : get_conversation_summary ctx = String.intercalate "\n" (summaryParts ctx) := by
      simp [get_conversation_summary, hm]
    rw [h2, h1]
    rfl

/-- C7 witness: a context holding exactly one newline-free message. -/
theorem conversation_summary_spec_witness :
    get_conversation_summary ctxA =
      renderMessage ⟨"user", "hi", 0, (none : Option String)⟩ :=
  (conversation_summary_spec ctxA (by decide)).2.2.2.2.2.2
    ⟨"user", "hi", 0, none⟩ rfl

/-- A registered user sitting in the placement test. -/
def exStPlacement : BotState :=
  { persisted := { level := "Entry", videoNumber := 0, state := STATE_PLACEMENT_TEST },
    reviewSession := none, conversation := none }

/-- C6: when the placement oracle raises, the handler still completes: the
fallback draw `r ∈ {1,2,3}` yields a level in {Beginner, Intermediate,
Advanced}, the persisted record gets that level, video number 1 and state
Showing Video, and no exception escapes (the result is `some _`). -/
theorem placement_fallback_spec (e : String) (st : BotState) (r : Nat)
    (h1 : 1 ≤ r) (h3 : r ≤ 3) :
    ∃ g, assess_placement_test (Except.error e) r = some g ∧
      g ∈ ["Beginner", "Intermediate", "Advanced"] ∧
      handle_placement_test_state (Except.error e) r st =
        some ({ st with persisted :=
                  { level := g, videoNumber := 1, state := STATE_SHOWING_VIDEO } },
          ["Perfekt! Du bist bereit für dein erstes Video."]) := by
  interval_cases r
  · exact ⟨"Beginner", rfl, by decide, rfl⟩
  · exact ⟨"Intermediate", rfl, by decide, rfl⟩
  · exact ⟨"Advanced", rfl, by decide, rfl⟩

/-- C6 witness: the fallback draw 2 on a failing oracle. -/
theorem placement_fallback_spec_witness :
    ∃ g, assess_placement_test (Except.error "boom") 2 = some g ∧
      g ∈ ["Beginner", "Intermediate", "Advanced"] ∧
      handle_placement_test_state (Except.error "boom") 2 exStPlacement =
        some ({ exStPlacement with persisted :=
                  { level := g, videoNumber := 1, state := STATE_SHOWING_VIDEO } },
          ["Perfekt! Du bist bereit für dein erstes Video."]) :=
  placement_fallback_spec "boom" exStPlacement 2 (by decide) (by decide)

/-- The `user_data` dict assembled by `create_user` (src/airtable_service.py)
restricted to the `Level` / `Video Number` / `State` fields. -/
def create_user_fields (user_level : String) (user_video_number : Nat)
    (user_state : String) : UserFields :=
  { level := user_level, videoNumber := user_video_number, state := user_state }

/-- The record created at first contact by `start` (src/main.py):
`create_user(user_id, Config.USER_LEVELS["ENTRY"], 0, UserState.PLACEMENT_TEST.value)`. -/
def start_new_user : UserFields :=
  create_user_fields "Entry" 0 STATE_PLACEMENT_TEST

/-- C9 counterexample: the record created at first contact has
`video_number = 0`, not `>= 1`. -/
theorem start_video_number_zero :
    start_new_user.videoNumber = 0 ∧ ¬ 1 ≤ start_new_user.videoNumber := by
  decide

/-- C9 (amended): the first-contact record is created with `video_number = 0`
(a pre-placement placeholder); the placement handler then writes
`video_number = 1` and every `advance` result is `>= 1`, so records written
after placement keep `video_number` positive. -/
theorem video_number_invariant_amended :
    start_new_user.videoNumber = 0 ∧
    (∀ (o : Except String String) (r : Nat) (st : BotState) (out : BotState × List String),
      handle_placement_test_state o r st = some out →
      out.1.persisted.videoNumber = 1) ∧
    (∀ (level : String) (n : Nat), 1 ≤ (advance level n).2) := by
  refine ⟨rfl, ?_, ?_⟩
  · intro o r st out h
    unfold handle_placement_test_state at h
    cases hassess : assess_placement_test o r with
    | none => rw [hassess] at h; simp at h
    | some g =>
        rw [hassess] at h
        simp at h
        rw [← h]
  · intro level n
    by_cases h : n + 1 > MAX_VIDEOS_PER_LEVEL
    · simp [advance, h]
    · simp [advance, h]

/-- C9 amended witness: the placement handler output at a concrete failing
oracle and draw 2. -/
theorem video_number_invariant_amended_witness :
    (({ exStPlacement with persisted :=
          { level := "Intermediate", videoNumber := 1, state := STATE_SHOWING_VIDEO } },
       ["Perfekt! Du bist bereit für dein erstes Video."]) :
        BotState × List String).1.persisted.videoNumber = 1 :=
  video_number_invariant_amended.2.1 (Except.error "x") 2 exStPlacement _ rfl

/-- A user waiting for a response at a position with no matching video. -/
def exStWaiting : BotState :=
  { persisted := { level := "Beginner", videoNumber := 1, state := STATE_WAITING_FOR_RESPONSE },
    reviewSession := none, conversation := none }

/-- C5 counterexample: a free-text message in Waiting for Response with no
matching video record still mutates and writes back persisted state — the
user is moved to Chat Mode. -/
theorem missing_video_counterexample :
    (handle_waiting_for_response_state [] (Except.error "x") exStWaiting "hi").1.persisted ≠
      exStWaiting.persisted ∧
    (handle_waiting_for_response_state [] (Except.error "x") exStWaiting "hi").1.persisted.state =
      STATE_CHAT_MODE ∧
    exStWaiting.persisted.state = STATE_WAITING_FOR_RESPONSE := by
  decide

/-- C5 (amended): with no matching video, `handle_showing_video_state` does
abort with the "not found" message and leaves everything unchanged, but
`handle_waiting_for_response_state` replies with a fallback echo and still
transitions the persisted state to Chat Mode (level and video number are
unchanged). -/
theorem missing_video_amended :
    (∀ (catalog : List VideoRecord) (user : UserFields) (st : BotState),
      get_video_info catalog user.level user.videoNumber = none →
      handle_showing_video_state catalog user st = (st, [VIDEO_NOT_FOUND])) ∧
    (∀ (catalog : List VideoRecord) (oracle : Except String String) (st : BotState)
        (text : String),
      get_video_info catalog st.persisted.level st.persisted.videoNumber = none →
      handle_waiting_for_response_state catalog oracle st text =
        ({ st with persisted := { st.persisted with state := STATE_CHAT_MODE } },
         ["Danke für deine Antwort: " ++ text])) := by
  constructor
  · intro catalog user st h
    unfold handle_showing_video_state
    rw [h]
  · intro catalog oracle st text h
    simp [handle_waiting_for_response_state, h]

/-- C5 amended witness: the empty catalog and a concrete waiting user. -/
theorem missing_video_amended_witness :
    handle_waiting_for_response_state [] (Except.error "x") exStWaiting "hi" =
      ({ exStWaiting with persisted := { exStWaiting.persisted with state := STATE_CHAT_MODE } },
       ["Danke für deine Antwort: " ++ "hi"]) :=
  missing_video_amended.2 [] (Except.error "x") exStWaiting "hi" rfl

/-- After `handle_next_video_from_reply` the persisted position is exactly
`advance` of the in-memory user's position (the state field depends on
whether the target video exists), and the review session is untouched. -/
theorem handle_next_video_result (catalog : List VideoRecord) (user : UserFields)
    (st : BotState) :
    (handle_next_video_from_reply catalog user st).1.persisted.level =
      (advance user.level user.videoNumber).1 ∧
    (handle_next_video_from_reply catalog user st).1.persisted.videoNumber =
      (advance user.level user.videoNumber).2 ∧
    (handle_next_video_from_reply catalog user st).1.reviewSession = st.reviewSession := by
  by_cases h : user.videoNumber + 1 > MAX_VIDEOS_PER_LEVEL
  all_goals
    cases hv : get_video_info catalog (advance user.level user.videoNumber).1
        (advance user.level user.videoNumber).2
  all_goals
    simp [advance, h] at hv
    simp [handle_next_video_from_reply, handle_showing_video_state, advance, h, hv]

/-- The four-video catalog Beginner 1-2, Intermediate 1-2. -/
def vB1 : VideoRecord :=
  { recordId := "recB1", title := "B1", description := "dB1", question := "qB1",
    url := "", level := "Beginner", videoNumber := 1, understandingBenchmark := none }

/-- Beginner video 2. -/
def vB2 : VideoRecord :=
  { recordId := "recB2", title := "B2", description := "dB2", question := "qB2",
    url := "", level := "Beginner", videoNumber := 2, understandingBenchmark := none }

/-- Intermediate video 1. -/
def vI1 : VideoRecord :=
  { recordId := "recI1", title := "I1", description := "dI1", question := "qI1",
    url := "", level := "Intermediate", videoNumber := 1, understandingBenchmark := none }

/-- Intermediate video 2. -/
def vI2 : VideoRecord :=
  { recordId := "recI2", title := "I2", description := "dI2", question := "qI2",
    url := "", level := "Intermediate", videoNumber := 2, understandingBenchmark := none }

/-- The catalog with the four videos above. -/
def cat4 : List VideoRecord := [vB1, vB2, vI1, vI2]

/-- A user at (Intermediate, 2) in Chat Mode with no review session. -/
def stI2 : BotState :=
  { persisted := { level := "Intermediate", videoNumber := 2, state := STATE_CHAT_MODE },
    reviewSession := none, conversation := none }

/-- The state after selecting the non-current lesson (Beginner, 1) for review
from (Intermediate, 2). -/
def afterReviewSelect : BotState :=
  (handle_video_selection_callback cat4 stI2 "recB1" true).1

/-- The state after the first "Verstanden!" while the review session is
active. -/
def afterFirstUnderstood : BotState :=
  (handle_understood cat4 afterReviewSelect).1

/-- The state after a second "Verstanden!" (no review session left). -/
def afterSecondUnderstood : BotState :=
  (handle_understood cat4 afterFirstUnderstood).1

/-- C1 counterexample: in the review round trip itself the first
"Verstanden!" arrives in state Waiting for Response (set when the review
video was shown), and the restore leaves the state exactly as it was —
Waiting for Response, not Chat Mode. -/
theorem understood_review_counterexample :
    afterReviewSelect.persisted.state = STATE_WAITING_FOR_RESPONSE ∧
    afterReviewSelect.reviewSession =
      some ⟨"Intermediate", 2, "recB1"⟩ ∧
    afterFirstUnderstood.persisted.state = STATE_WAITING_FOR_RESPONSE ∧
    STATE_WAITING_FOR_RESPONSE ≠ STATE_CHAT_MODE := by
  decide

/-- C1 (amended): on "Verstanden!" in state Waiting for Response or Chat
Mode, with a review session the persisted level and video number are restored
to exactly the snapshot values, the snapshot is deleted, the "review ended"
reply is issued, and the state field is left unchanged (a Chat Mode user
stays in Chat Mode, a Waiting for Response user stays in Waiting for
Response); with no session the position advances per `advance`.  The concrete
round trip from (Intermediate, 2, Chat Mode) via (Beginner, 1) restores
(Intermediate, 2) and a second "Verstanden!" advances per `advance`. -/
theorem understood_spec :
    (∀ (catalog : List VideoRecord) (st : BotState) (snap : ReviewSnapshot),
      st.reviewSession = some snap →
      st.persisted.state = STATE_WAITING_FOR_RESPONSE ∨
        st.persisted.state = STATE_CHAT_MODE →
      handle_understood catalog st =
        ({ st with
            persisted := { st.persisted with
              level := snap.originalLevel, videoNumber := snap.originalVideoNumber },
            reviewSession := none },
         ["Wiederholung beendet! Du bist zurück bei " ++ snap.originalLevel ++
          " Video " ++ toString snap.originalVideoNumber ++ "."])) ∧
    (∀ (catalog : List VideoRecord) (st : BotState),
      st.reviewSession = none →
      (handle_understood catalog st).1.persisted.level =
        (advance st.persisted.level st.persisted.videoNumber).1 ∧
      (handle_understood catalog st).1.persisted.videoNumber =
        (advance st.persisted.level st.persisted.videoNumber).2) ∧
    (afterReviewSelect.reviewSession = some ⟨"Intermediate", 2, "recB1"⟩ ∧
     afterFirstUnderstood.persisted.level = "Intermediate" ∧
     afterFirstUnderstood.persisted.videoNumber = 2 ∧
     afterFirstUnderstood.reviewSession = none ∧
     (afterSecondUnderstood.persisted.level, afterSecondUnderstood.persisted.videoNumber) =
       advance "Intermediate" 2) := by
  refine ⟨?_, ?_, by decide⟩
  · intro catalog st snap hs _
    simp [handle_understood, hs]
  · intro catalog st hs
    obtain ⟨h1, h2, _⟩ := handle_next_video_result catalog st.persisted st
    simp [handle_understood, hs]
    exact ⟨h1, h2⟩

/-- C1 witness: the restore clause applied in the round-trip state, where the
session snapshot is (Intermediate, 2). -/
theorem understood_spec_witness :
    handle_understood cat4 afterReviewSelect =
      ({ afterReviewSelect with
          persisted := { afterReviewSelect.persisted with
            level := "Intermediate", videoNumber := 2 },
          reviewSession := none },
       ["Wiederholung beendet! Du bist zurück bei " ++ "Intermediate" ++
        " Video " ++ toString 2 ++ "."]) :=
  understood_spec.1 cat4 afterReviewSelect ⟨"Intermediate", 2, "recB1"⟩
    (by decide) (Or.inl (by decide))

/-- The `level_order` list of `create_course_overview_keyboard` (src/utils.py)
and `generate_course_overview_text` (src/main.py). -/
def LEVEL_ORDER : List String := ["Entry", "Beginner", "Intermediate", "Advanced"]

/-- The keys of the `videos_by_level` dict in first-occurrence (insertion)
order. -/
def levelsIn (catalog : List VideoRecord) : List String :=
  catalog.foldl (fun acc v => if v.level ∈ acc then acc else acc ++ [v.level]) []

/-- Embeds `sorted_levels`: the standard levels that occur in the catalog, in
`LEVEL_ORDER`, followed by the remaining dict keys (those outside
`LEVEL_ORDER`) in insertion order — the code appends exactly the keys not
already placed. -/
def sortedLevels (catalog : List VideoRecord) : List String :=
  LEVEL_ORDER.filter (fun l => decide (l ∈ levelsIn catalog)) ++
    (levelsIn catalog).filter (fun l => !decide (l ∈ LEVEL_ORDER))

/-- Stable insertion step: a later element goes after every already-placed
element whose key is `<=` its own. -/
def insertByVideoNumber (v : VideoRecord) : List VideoRecord → List VideoRecord
  | [] => [v]
  | w :: ws =>
      if Nat.ble w.videoNumber v.videoNumber then w :: insertByVideoNumber v ws
      else v :: w :: ws

/-- Embeds `sorted(level_videos, key=video number)` — Python's sort is stable;
a stable insertion sort (kernel-evaluable) computes the same list. -/
def sortedLevelVideos (catalog : List VideoRecord) (level : String) : List VideoRecord :=
  (catalog.filter (fun v => v.level == level)).foldl
    (fun acc v => insertByVideoNumber v acc) []

/-- The level loop of `create_course_overview_keyboard` (src/utils.py),
carrying the `current_level_reached` flag.  Each emitted button is the video
record together with the `is_review` flag put into its callback data:
`(is_current_level and video_num < current) or (not current_level_reached)`. -/
def overviewButtonsAux (catalog : List VideoRecord) (user_level : String) (cur : Nat) :
    List String → Bool → List (VideoRecord × Bool)
  | [], _ => []
  | level :: rest, current_level_reached =>
      let is_current_level := level == user_level
      (sortedLevelVideos catalog level).filterMap (fun v =>
        let should_show_button : Bool :=
          if is_current_level then Nat.ble v.videoNumber cur
          else !current_level_reached
        if should_show_button then
          some (v, (is_current_level && Nat.blt v.videoNumber cur) || !current_level_reached)
        else none) ++
      overviewButtonsAux catalog user_level cur rest (current_level_reached || is_current_level)

/-- Embeds `KeyboardFactory.create_course_overview_keyboard` (src/utils.py), as the
list of (video, is_review) button payloads. -/
def create_course_overview_keyboard (catalog : List VideoRecord) (user_level : String)
    (cur : Nat) : List (VideoRecord × Bool) :=
  overviewButtonsAux catalog user_level cur (sortedLevels catalog) false

/-- The insertion-ordered key list is duplicate-free. -/
theorem levelsIn_nodup (catalog : List VideoRecord) : (levelsIn catalog).Nodup := by
  have key : ∀ (l : List VideoRecord) (acc : List String), acc.Nodup →
      (l.foldl (fun acc v => if v.level ∈ acc then acc else acc ++ [v.level]) acc).Nodup := by
    intro l
    induction l with
    | nil => intro acc h; exact h
    | cons v rest ih =>
        intro acc h
        rw [List.foldl_cons]
        by_cases hv : v.level ∈ acc
        · rw [if_pos hv]; exact ih acc h
        · rw [if_neg hv]
          refine ih _ (List.Nodup.append h (List.nodup_singleton _) ?_)
          intro a ha hmem
          rw [List.mem_singleton] at hmem
          exact hv (hmem ▸ ha)
  exact key catalog [] List.nodup_nil

/-- The list `sorted_levels` is duplicate-free. -/
theorem sortedLevels_nodup (catalog : List VideoRecord) : (sortedLevels catalog).Nodup := by
  refine List.Nodup.append ?_ ?_ ?_
  · exact List.Nodup.filter _ (by decide)
  · exact List.Nodup.filter _ (levelsIn_nodup catalog)
  · intro a ha hb
    have h1 : a ∈ LEVEL_ORDER := List.mem_of_mem_filter ha
    have h2 := List.of_mem_filter hb
    simp at h2
    exact h2 h1

/-- Every button the overview keyboard emits carries `is_review = true`: when
a level's buttons are generated, `current_level_reached` is still false for
that level, so the `not current_level_reached` disjunct is true. -/
theorem overviewButtonsAux_all_review (catalog : List VideoRecord) (user_level : String)
    (cur : Nat) :
    ∀ (levels : List String) (reached : Bool), levels.Nodup →
      (reached = true → user_level ∉ levels) →
      ∀ p ∈ overviewButtonsAux catalog user_level cur levels reached, p.2 = true := by
  intro levels
  induction levels with
  | nil =>
      intro reached _ _ p hp
      simp [overviewButtonsAux] at hp
  | cons level rest ih =>
      intro reached hnd hni p hp
      rw [overviewButtonsAux, List.mem_append] at hp
      rcases hp with hp | hp
      · rw [List.mem_filterMap] at hp
        obtain ⟨v, _, hsome⟩ := hp
        simp only [Option.ite_none_right_eq_some, Option.some.injEq] at hsome
        obtain ⟨hshow, hpv⟩ := hsome
        subst hpv
        by_cases hc : (level == user_level) = true
        · have hreach : reached = false := by
            cases hr : reached
            · rfl
            · exact absurd (List.mem_cons_self level rest)
                ((beq_iff_eq.mp hc ▸ hni hr))
          subst hreach
          simp
        · have hcf : (level == user_level) = false := by
            cases hx : level == user_level
            · rfl
            · exact absurd hx hc
          rw [hcf] at hshow ⊢
          simp only [if_false, Bool.false_eq_true] at hshow
          simp [hshow]
      · refine ih (reached || (level == user_level)) (List.Nodup.of_cons hnd) ?_ p hp
        intro hr
        rw [Bool.or_eq_true] at hr
        rcases hr with hr | hr
        · exact fun hmem => hni hr (List.mem_cons_of_mem level hmem)
        · rw [beq_iff_eq] at hr
          subst hr
          exact (List.nodup_cons.mp hnd).1

/-- A user at (Beginner, 2) in Chat Mode, and the two-video Beginner catalog. -/
def stB2 : BotState :=
  { persisted := { level := "Beginner", videoNumber := 2, state := STATE_CHAT_MODE },
    reviewSession := none, conversation := none }

/-- Catalog with only the two Beginner videos. -/
def cat2 : List VideoRecord := [vB1, vB2]

/-- C3 counterexample: the overview button for the user's *current* position
(Beginner, 2) carries `is_review = true` — every emitted button does — so
selecting the current lesson creates a ReviewSnapshot instead of being a
normal jump; moreover during a genuine review of (Beginner, 1) started from
(Intermediate, 2) the persisted position holds the target (Beginner, 1), not
the pre-selection value. -/
theorem overview_selection_counterexample :
    (vB2, true) ∈ create_course_overview_keyboard cat2 "Beginner" 2 ∧
    vB2.level = "Beginner" ∧ vB2.videoNumber = 2 ∧
    (∀ p ∈ create_course_overview_keyboard cat2 "Beginner" 2, p.2 = true) ∧
    (handle_video_selection_callback cat2 stB2 "recB2" true).1.reviewSession =
      some ⟨"Beginner", 2, "recB2"⟩ ∧
    afterReviewSelect.persisted.level = "Beginner" ∧
    afterReviewSelect.persisted.videoNumber = 1 ∧
    stI2.persisted.level = "Intermediate" ∧ stI2.persisted.videoNumber = 2 := by
  decide

/-- C3 (amended): every overview button carries `is_review = true` (the
`not current_level_reached` disjunct holds when a level's buttons are built),
including the current position, so every overview selection is handled as a
review: a ReviewSnapshot capturing the current persisted (level, video
number) is created and the selection handler itself skips the persisted
write; the target becomes the active video, and the re-entered Showing Video
behavior then persists the target position with state Waiting for Response
(when the target video resolves; otherwise nothing is written).  A non-review
selection (never produced by the keyboard) would update the persisted record
immediately and leave the review session untouched. -/
theorem overview_selection_amended :
    (∀ (catalog : List VideoRecord) (user_level : String) (cur : Nat)
        (p : VideoRecord × Bool),
      p ∈ create_course_overview_keyboard catalog user_level cur → p.2 = true) ∧
    (∀ (catalog : List VideoRecord) (st : BotState) (rid : String)
        (video_info : VideoRecord),
      catalog.find? (fun v => v.recordId == rid) = some video_info →
      (handle_video_selection_callback catalog st rid true).1.reviewSession =
        some ⟨st.persisted.level, st.persisted.videoNumber, rid⟩ ∧
      (get_video_info catalog video_info.level video_info.videoNumber = none →
        (handle_video_selection_callback catalog st rid true).1.persisted = st.persisted) ∧
      (∀ w, get_video_info catalog video_info.level video_info.videoNumber = some w →
        (handle_video_selection_callback catalog st rid true).1.persisted =
          { level := video_info.level, videoNumber := video_info.videoNumber,
            state := STATE_WAITING_FOR_RESPONSE })) ∧
    (∀ (catalog : List VideoRecord) (st : BotState) (rid : String)
        (video_info : VideoRecord),
      catalog.find? (fun v => v.recordId == rid) = some video_info →
      (handle_video_selection_callback catalog st rid false).1.reviewSession =
        st.reviewSession ∧
      ∃ s, (handle_video_selection_callback catalog st rid false).1.persisted =
        { level := video_info.level, videoNumber := video_info.videoNumber, state := s }) := by
  refine ⟨?_, ?_, ?_⟩
  · intro catalog user_level cur p hp
    exact overviewButtonsAux_all_review catalog user_level cur (sortedLevels catalog) false
      (sortedLevels_nodup catalog) (fun h => absurd h Bool.false_ne_true) p hp
  · intro catalog st rid video_info hfind
    refine ⟨?_, ?_, ?_⟩
    · cases hv : get_video_info catalog video_info.level video_info.videoNumber <;>
        simp [handle_video_selection_callback, handle_showing_video_state, hfind, hv]
    · intro hv
      simp [handle_video_selection_callback, handle_showing_video_state, hfind, hv]
    · intro w hv
      simp [handle_video_selection_callback, handle_showing_video_state, hfind, hv]
  · intro catalog st rid video_info hfind
    constructor
    · cases hv : get_video_info catalog video_info.level video_info.videoNumber <;>
        simp [handle_video_selection_callback, handle_showing_video_state, hfind, hv]
    · cases hv : get_video_info catalog video_info.level video_info.videoNumber
      · exact ⟨STATE_SHOWING_VIDEO,
          by simp [handle_video_selection_callback, handle_showing_video_state, hfind, hv]⟩
      · exact ⟨STATE_WAITING_FOR_RESPONSE,
          by simp [handle_video_selection_callback, handle_showing_video_state, hfind, hv]⟩

/-- C3 witness: the review selection of (Beginner, 1) from (Intermediate, 2)
snapshots the pre-selection persisted position. -/
theorem overview_selection_amended_witness :
    (handle_video_selection_callback cat4 stI2 "recB1" true).1.reviewSession =
      some ⟨"Intermediate", 2, "recB1"⟩ :=
  (overview_selection_amended.2.1 cat4 stI2 "recB1" vB1 rfl).1

/-- Python's `f"{x:.0f}"` applied to the nonnegative fraction `num / den`:
round to the nearest integer, ties to even. -/
def formatF0 (num den : Nat) : Nat :=
  if 2 * (num % den) < den then num / den
  else if den < 2 * (num % den) then num / den + 1
  else if (num / den) % 2 = 0 then num / den else num / den + 1

/-- The `total_completed_videos` tally of `generate_course_overview_text`
(src/main.py): on the current level the videos with number below the current
one count as completed, on levels before it every video counts, on levels
after it none. -/
def completedCountAux (catalog : List VideoRecord) (user_level : String) (cur : Nat) :
    List String → Bool → Nat
  | [], _ => 0
  | level :: rest, current_level_reached =>
      (if level == user_level then
        ((sortedLevelVideos catalog level).filter (fun v => Nat.blt v.videoNumber cur)).length
      else if !current_level_reached then (sortedLevelVideos catalog level).length
      else 0) +
      completedCountAux catalog user_level cur rest
        (current_level_reached || level == user_level)

/-- The completed count over the whole catalog. -/
def completedCount (catalog : List VideoRecord) (user_level : String) (cur : Nat) : Nat :=
  completedCountAux catalog user_level cur (sortedLevels catalog) false

/-- Embeds `progress_percentage` as rendered with `{progress_percentage:.0f}`
(src/main.py line 280-281): `completed / total * 100` when `total > 0`,
else 0. -/
def progressPercent (catalog : List VideoRecord) (user_level : String) (cur : Nat) : Nat :=
  if 0 < catalog.length then
    formatF0 (completedCount catalog user_level cur * 100) catalog.length
  else 0

/-- The aggregate progress line of the course overview. -/
def progressLine (catalog : List VideoRecord) (user_level : String) (cur : Nat) : String :=
  "📊 **Gesamtfortschritt**: " ++ toString (completedCount catalog user_level cur) ++ "/" ++
    toString catalog.length ++ " Videos (" ++
    toString (progressPercent catalog user_level cur) ++ "%)"

/-- Three-video catalog: Beginner 1-2 and Intermediate 1. -/
def cat3 : List VideoRecord := [vB1, vB2, vI1]

/-- C8 counterexample: at (Intermediate, 1) over a 3-video catalog, 2 of 3
videos are completed; the rendered percentage is 67 (rounded), while
truncation of 200/3 gives 66. -/
theorem progress_percent_counterexample :
    completedCount cat3 "Intermediate" 1 = 2 ∧
    cat3.length = 3 ∧
    progressPercent cat3 "Intermediate" 1 = 67 ∧
    completedCount cat3 "Intermediate" 1 * 100 / cat3.length = 66 ∧
    progressPercent cat3 "Intermediate" 1 ≠
      completedCount cat3 "Intermediate" 1 * 100 / cat3.length ∧
    progressLine cat3 "Intermediate" 1 =
      "📊 **Gesamtfortschritt**: 2/3 Videos (67%)" := by
  decide

/-- Purely linear core of the rounding bound: among multiples of `den`, the
floor multiple `qd` is closest when `2r <= den` and `qd + den` is closest
when `den <= 2r`. -/
theorem dist_mult_bound (qd kd r den num : Nat)
    (e1 : qd + r = num) (hr : r < den)
    (hk : kd ≤ qd ∨ qd + den ≤ kd) :
    (2 * r ≤ den → Nat.dist qd num ≤ Nat.dist kd num) ∧
    (den ≤ 2 * r → Nat.dist (qd + den) num ≤ Nat.dist kd num) := by
  simp only [Nat.dist]
  omega

/-- C8 (amended): the overview renders the percentage as
`formatF0 (completed * 100) total`, which is `completed * 100 / total`
rounded to the *nearest* integer (the chosen value is a closest multiple of
the denominator, ties broken towards even) — not the truncated value. -/
theorem progress_percent_amended :
    (∀ (catalog : List VideoRecord) (user_level : String) (cur : Nat),
      0 < catalog.length →
      progressPercent catalog user_level cur =
        formatF0 (completedCount catalog user_level cur * 100) catalog.length) ∧
    (∀ num den : Nat, 0 < den →
      formatF0 num den = num / den ∨ formatF0 num den = num / den + 1) ∧
    (∀ num den k : Nat, 0 < den →
      Nat.dist (formatF0 num den * den) num ≤ Nat.dist (k * den) num) ∧
    (∀ num den : Nat, 0 < den → 2 * (num % den) = den → formatF0 num den % 2 = 0) := by
  refine ⟨?_, ?_, ?_, ?_⟩
  · intro catalog user_level cur h
    simp [progressPercent, h]
  · intro num den _
    unfold formatF0
    split
    · exact Or.inl rfl
    · split
      · exact Or.inr rfl
      · split
        · exact Or.inl rfl
        · exact Or.inr rfl
  · intro num den k hden
    have hmod : num % den < den := Nat.mod_lt num hden
    have hk : k * den ≤ num / den * den ∨ num / den * den + den ≤ k * den := by
      rcases Nat.lt_or_ge (num / den) k with h | h
      · right
        have h2 : (num / den + 1) * den ≤ k * den := Nat.mul_le_mul_right den h
        rw [Nat.succ_mul] at h2
        exact h2
      · exact Or.inl (Nat.mul_le_mul_right den h)
    have key := dist_mult_bound (num / den * den) (k * den) (num % den) den num
      (Nat.div_add_mod' num den) hmod hk
    unfold formatF0
    split
    case isTrue h1 => exact key.1 (Nat.le_of_lt h1)
    case isFalse h1 =>
      split
      case isTrue h2 =>
        rw [Nat.succ_mul]
        exact key.2 (Nat.le_of_lt h2)
      case isFalse h2 =>
        split
        · exact key.1 (by omega)
        · rw [Nat.succ_mul]
          exact key.2 (by omega)
  · intro num den _ htie
    unfold formatF0
    rw [if_neg (by omega), if_neg (by omega)]
    split
    case isTrue h => exact h
    case isFalse h => omega

/-- C8 witness: `200/3` rendered; 67 is at least as close to `200/3` as the
truncated 66. -/
theorem progress_percent_amended_witness :
    Nat.dist (formatF0 200 3 * 3) 200 ≤ Nat.dist (66 * 3) 200 :=
  progress_percent_amended.2.2.1 200 3 66 (by decide)
